import Mathlib

/-!
Shallow embedding of `src/gateway.rs` from aw-gateway-rs (a TCP client and
sensor codec for an Ecowitt-style weather-station gateway).

Modelling conventions:
* Rust byte slices `&[u8]` become `List Nat`; real inputs have all entries
  below 256, and the big-endian reassembly helpers reduce modulo the word
  size so that the definitions are total.
* `f64` values become `ℚ`.  Every floating constant compared against in the
  source (`0.0`, `1.0`, `5.0`, `6.0`, `1.2`) is either exactly representable
  or, for `1.2`, the comparison `x <= 1.2f64` agrees with `x ≤ 6/5` for every
  representable double `x`, so the rational embedding is extensionally
  faithful on all machine inputs.
* Fallible Rust code returns `RResult`: `.ok`, `.err` (a `Result::Err` with
  the formatted message) or `.panic` (an out-of-bounds index or slice, an
  `unwrap` of an `Err`/`None`, or an arithmetic underflow).  Indexing and
  slicing are translated through `idxR`/`sliceR`, which produce `.panic`
  exactly when the Rust operation would panic.
-/

/-- Result of running a piece of fallible Rust code: normal return,
`Err(message)`, or a panic (out-of-bounds access / failed unwrap). -/
inductive RResult (α : Type) where
  | ok : α → RResult α
  | err : String → RResult α
  | panic : RResult α
deriving DecidableEq, Repr

/-- Sequencing of panicking/fallible computations: `.err` and `.panic`
short-circuit, mirroring Rust control flow (`?`, early return, panic). -/
def RResult.bind {α β : Type} : RResult α → (α → RResult β) → RResult β
  | .ok a, f => f a
  | .err e, _ => .err e
  | .panic, _ => .panic

/-- Rust slice indexing `data[i]`: panics when `i` is out of bounds. -/
def idxR (data : List Nat) (i : Nat) : RResult Nat :=
  if h : i < data.length then .ok (data.get ⟨i, h⟩) else .panic

/-- Rust range slicing `&data[a..b]`: panics when `a > b` or `b > len`. -/
def sliceR (data : List Nat) (a b : Nat) : RResult (List Nat) :=
  if a ≤ b ∧ b ≤ data.length then .ok ((data.drop a).take (b - a)) else .panic

/-- `u16::from_be_bytes` on two bytes. -/
def be2 (a b : Nat) : Nat := a * 256 + b

/-- `u32::from_be_bytes` on four bytes. -/
def be4 (a b c d : Nat) : Nat := ((a * 256 + b) * 256 + c) * 256 + d

/-- Reinterpret a 16-bit big-endian pair as `i16` (two's complement). -/
def i16be (a b : Nat) : ℤ :=
  let v := (a * 256 + b) % 65536
  if v < 32768 then (v : ℤ) else (v : ℤ) - 65536

/-- Reinterpret a byte as `i8` (two's complement), `data[0] as i8`. -/
def i8of (a : Nat) : ℤ :=
  let v := a % 256
  if v < 128 then (v : ℤ) else (v : ℤ) - 256

/-- Reinterpret a 32-bit big-endian quadruple as `i32` (two's complement). -/
def i32be (a b c d : Nat) : ℤ :=
  let v := be4 a b c d % 4294967296
  if v < 2147483648 then (v : ℤ) else (v : ℤ) - 4294967296

/-- The last two bytes of a slice, `&data[data.len() - 2..]` (callers have
already checked `data.len() ≥ 2`, so the wildcard case is unreachable). -/
def lastTwoI16 (data : List Nat) : ℤ :=
  match data.drop (data.length - 2) with
  | [a, b] => i16be a b
  | _ => 0

/-- Lowercase hex digit character. -/
def hexDigit (n : Nat) : Char :=
  if n < 10 then Char.ofNat (48 + n) else Char.ofNat (87 + n)

/-- Uppercase hex digit character. -/
def hexDigitU (n : Nat) : Char :=
  if n < 10 then Char.ofNat (48 + n) else Char.ofNat (55 + n)

/-- Rust `format!` with `{:x}` on a byte: minimal-width lowercase hex. -/
def hexByteStr (n : Nat) : String :=
  if n < 16 then String.mk [hexDigit n]
  else String.mk [hexDigit (n / 16 % 16), hexDigit (n % 16)]

/-- Rust `format!` with `{:02x}` on a byte: two-digit lowercase hex. -/
def hex2 (n : Nat) : String :=
  String.mk [hexDigit (n / 16 % 16), hexDigit (n % 16)]

/-- Rust `format!` with `{:02X}` on a byte: two-digit uppercase hex. -/
def hex2U (n : Nat) : String :=
  String.mk [hexDigitU (n / 16 % 16), hexDigitU (n % 16)]

/-- `enum SensorBatteryState` from the source. -/
inductive SensorBatteryState where
  | Ok
  | Low
  | Connected
  | Unknown
deriving DecidableEq, Repr

/-- The six raw bytes carried by `SensorValue::DateTime([u8; 6])`. -/
structure Bytes6 where
  b0 : Nat
  b1 : Nat
  b2 : Nat
  b3 : Nat
  b4 : Nat
  b5 : Nat
deriving DecidableEq, Repr

/-- `enum SensorValue` from the source (floats as `ℚ`, signed ints as `ℤ`,
`u32` as `ℕ`). -/
inductive SensorValue where
  | Empty
  | Temp (v : ℚ)
  | Humidity (v : ℚ)
  | Pressure (v : ℚ)
  | Speed (v : ℚ)
  | Rain (v : ℚ)
  | RainLarge (v : ℚ)
  | Distance (v : ℤ)
  | Direction (v : ℤ)
  | UtcTime (v : ℤ)
  | Count (v : ℕ)
  | Gain (v : ℚ)
  | DateTime (v : Bytes6)
  | Pm10 (v : ℚ)
  | Pm25 (v : ℚ)
  | Co2 (v : ℤ)
  | Light (v : ℚ)
  | Uv (v : ℚ)
  | UvIndex (v : ℚ)
  | Leak (v : ℚ)
  | Moist (v : ℚ)
  | Battery (v : SensorBatteryState)
deriving DecidableEq, Repr

/-- `struct SensorData`: a field name paired with a value
(`SensorData::new(field, value)`). -/
structure SensorData where
  field : String
  value : SensorValue
deriving DecidableEq, Repr

namespace SensorValue

/-- `SensorValue::parse_temp`: 16-bit signed big-endian ÷ 10. -/
def parse_temp : List Nat → RResult (List SensorValue)
  | [a, b] => .ok [SensorValue.Temp ((i16be a b : ℚ) / 10)]
  | _ => .err "Invalid data length temp"

/-- `SensorValue::parse_humidity`: one unsigned byte. -/
def parse_humidity : List Nat → RResult (List SensorValue)
  | [a] => .ok [SensorValue.Humidity (a : ℚ)]
  | _ => .err "Invalid data length for humidity"

/-- `SensorValue::parse_moist`: one unsigned byte. -/
def parse_moist : List Nat → RResult (List SensorValue)
  | [a] => .ok [SensorValue.Moist (a : ℚ)]
  | _ => .err "Invalid data length for moist"

/-- `SensorValue::parse_pressure`: length ≥ 2 check, last two bytes as
16-bit signed big-endian ÷ 10. -/
def parse_pressure (data : List Nat) : RResult (List SensorValue) :=
  if data.length < 2 then .err "Invalid data length for pressure"
  else .ok [SensorValue.Pressure ((lastTwoI16 data : ℚ) / 10)]

/-- `SensorValue::parse_speed`. -/
def parse_speed (data : List Nat) : RResult (List SensorValue) :=
  if data.length < 2 then .err "Invalid data length for speed"
  else .ok [SensorValue.Speed ((lastTwoI16 data : ℚ) / 10)]

/-- `SensorValue::parse_rain`. -/
def parse_rain (data : List Nat) : RResult (List SensorValue) :=
  if data.length < 2 then .err "Invalid data length for rain"
  else .ok [SensorValue.Rain ((lastTwoI16 data : ℚ) / 10)]

/-- `SensorValue::parse_rainlarge`: 32-bit unsigned big-endian ÷ 10. -/
def parse_rainlarge : List Nat → RResult (List SensorValue)
  | [a, b, c, d] => .ok [SensorValue.RainLarge ((be4 a b c d : ℚ) / 10)]
  | _ => .err "Invalid data length for rainlarge"

/-- `SensorValue::parse_distance`: one byte as `i8` (its error message in the
source reuses the humidity wording). -/
def parse_distance : List Nat → RResult (List SensorValue)
  | [a] => .ok [SensorValue.Distance (i8of a)]
  | _ => .err "Invalid data length for humidity"

/-- `SensorValue::parse_direction` (source message spells "lenght"). -/
def parse_direction : List Nat → RResult (List SensorValue)
  | [a, b] => .ok [SensorValue.Direction (i16be a b)]
  | _ => .err "Invalid data lenght for direction"

/-- `SensorValue::parse_count`: 32-bit unsigned big-endian. -/
def parse_count : List Nat → RResult (List SensorValue)
  | [a, b, c, d] => .ok [SensorValue.Count (be4 a b c d)]
  | _ => .err "Invalid data length for count"

/-- `SensorValue::parse_gain`: 32-bit unsigned big-endian ÷ 100. -/
def parse_gain : List Nat → RResult (List SensorValue)
  | [a, b, c, d] => .ok [SensorValue.Gain ((be4 a b c d : ℚ) / 100)]
  | _ => .err "Invalid data length for gain"

/-- `SensorValue::parse_light`: 32-bit unsigned big-endian ÷ 100. -/
def parse_light : List Nat → RResult (List SensorValue)
  | [a, b, c, d] => .ok [SensorValue.Light ((be4 a b c d : ℚ) / 100)]
  | _ => .err "Invalid data length for light"

/-- `SensorValue::parse_uv`. -/
def parse_uv (data : List Nat) : RResult (List SensorValue) :=
  if data.length < 2 then .err "Invalid data length for uv"
  else .ok [SensorValue.Uv ((lastTwoI16 data : ℚ) / 10)]

/-- `SensorValue::parse_uv_index`: one unsigned byte. -/
def parse_uv_index : List Nat → RResult (List SensorValue)
  | [a] => .ok [SensorValue.UvIndex (a : ℚ)]
  | _ => .err "Invalid data length for uv index"

/-- `SensorValue::parse_pm10`. -/
def parse_pm10 (data : List Nat) : RResult (List SensorValue) :=
  if data.length < 2 then .err "Invalid data length for pm10"
  else .ok [SensorValue.Pm10 ((lastTwoI16 data : ℚ) / 10)]

/-- `SensorValue::parse_pm25`. -/
def parse_pm25 (data : List Nat) : RResult (List SensorValue) :=
  if data.length < 2 then .err "Invalid data length for pm25"
  else .ok [SensorValue.Pm25 ((lastTwoI16 data : ℚ) / 10)]

/-- `SensorValue::parse_leak`: one unsigned byte. -/
def parse_leak : List Nat → RResult (List SensorValue)
  | [a] => .ok [SensorValue.Leak (a : ℚ)]
  | _ => .err "Invalid data length for leak"

/-- `SensorValue::parse_co2`: 16-bit signed big-endian, unscaled
(source message spells "lenght"). -/
def parse_co2 : List Nat → RResult (List SensorValue)
  | [a, b] => .ok [SensorValue.Co2 (i16be a b)]
  | _ => .err "Invalid data lenght for co2"

/-- `SensorValue::parse_utc`: 32-bit signed big-endian (its error message in
the source reuses the utc-time wording). -/
def parse_utc : List Nat → RResult (List SensorValue)
  | [a, b, c, d] => .ok [SensorValue.UtcTime (i32be a b c d)]
  | _ => .err "Invalid data length for utc time"

/-- `SensorValue::parse_datetime`: six raw bytes. -/
def parse_datetime : List Nat → RResult (List SensorValue)
  | [a, b, c, d, e, f] => .ok [SensorValue.DateTime ⟨a, b, c, d, e, f⟩]
  | _ => .err "Invalid data length for utc time"

/-- `.unwrap()[0]` applied to a sub-decoder result inside `parse_wh45`:
unwrapping an `Err` panics, indexing an empty vector panics. -/
def unwrap0 : RResult (List SensorValue) → RResult SensorValue
  | .ok (v :: _) => .ok v
  | .ok [] => .panic
  | .err _ => .panic
  | .panic => .panic

/-- `SensorValue::parse_wh45`, translated statement by statement.  The guard
in the source demands 6 bytes even though the registry declares 16, and the
body then slices `data[5..7]`, `data[7..9]`, … `data[13..15]`, so on the one
input length that passes the guard the very first slice past index 6 panics. -/
def parse_wh45 (data : List Nat) : RResult (List SensorValue) :=
  if data.length ≠ 6 then .err "Invalid data length for wh45 sensor"
  else
    (unwrap0 ((sliceR data 0 2).bind parse_temp)).bind fun temp =>
    (unwrap0 ((idxR data 2).bind (fun b => parse_humidity [b]))).bind fun humid =>
    (unwrap0 ((sliceR data 3 5).bind parse_pm10)).bind fun pm10 =>
    (unwrap0 ((sliceR data 5 7).bind parse_humidity)).bind fun pm10_avg =>
    (unwrap0 ((sliceR data 7 9).bind parse_pm25)).bind fun pm25 =>
    (unwrap0 ((sliceR data 9 11).bind parse_pm25)).bind fun pm25_avg =>
    (unwrap0 ((sliceR data 11 13).bind parse_co2)).bind fun co2 =>
    (unwrap0 ((sliceR data 13 15).bind parse_co2)).bind fun co2_avg =>
    .ok [temp, humid, pm10, pm10_avg, pm25, pm25_avg, co2, co2_avg]

/-- `SensorValue::skip_data`: consumes a legacy block, emits one `Empty`. -/
def skip_data (_data : List Nat) : RResult (List SensorValue) :=
  .ok [SensorValue.Empty]

end SensorValue

namespace SensorGateway

/-- `SensorGateway::generate_checksum`: wrapping byte sum. -/
def generate_checksum (data : List Nat) : Nat :=
  data.foldl (fun acc b => (acc + b) % 256) 0

/-- `SensorGateway::build_cmd_packet`: header ++ cmd ++ size ++ payload ++
checksum, with `size = payload.len() as u8 + 3` (wrapping `u8` arithmetic). -/
def build_cmd_packet (cmd : Nat) (payload : List Nat) : List Nat :=
  let size := (payload.length % 256 + 3) % 256
  let body := cmd :: size :: payload
  let checksum := generate_checksum body
  0xFF :: 0xFF :: (body ++ [checksum])

/-- `SensorGateway::validate_response`: command-echo check on byte 2, then
checksum over `response[2..len-1]` against the final byte. -/
def validate_response (response : List Nat) (command : Nat) : Except String Unit :=
  if response.get? 2 = some command then
    let checksum := generate_checksum ((response.drop 2).take (response.length - 3))
    let resp_checksum := (response.getLast?).getD 0
    if checksum = resp_checksum then Except.ok ()
    else Except.error ("Invalid checksum in API response. Expected '"
      ++ toString checksum ++ "' (0x" ++ hex2U checksum ++ "), received '"
      ++ toString resp_checksum ++ "' (0x" ++ hex2U resp_checksum ++ ").")
  else
    Except.error ("Invalid command code in API response. Expected '"
      ++ toString command ++ "' (0x" ++ hex2U command ++ "), received '"
      ++ toString ((response.get? 2).getD 0) ++ "' (0x"
      ++ hex2U ((response.get? 2).getD 0) ++ ").")

end SensorGateway

/-- `struct ParseInfo`: a registry entry (decoder, ordered field names,
declared payload size). -/
structure ParseInfo where
  parse_fn : List Nat → RResult (List SensorValue)
  field_names : List String
  size : Nat

/-- `Sensors::init_parsers`: the fixed type-id → descriptor registry, entry
for entry in source order. -/
def parsers (t : Nat) : Option ParseInfo :=
  if t = 0x01 then some ⟨SensorValue.parse_temp, ["indoor_temp"], 2⟩
  else if t = 0x02 then some ⟨SensorValue.parse_temp, ["outdoor_temp"], 2⟩
  else if t = 0x04 then some ⟨SensorValue.parse_temp, ["windchill"], 2⟩
  else if t = 0x05 then some ⟨SensorValue.parse_temp, ["heat_index"], 2⟩
  else if t = 0x06 then some ⟨SensorValue.parse_humidity, ["in_humidity"], 1⟩
  else if t = 0x07 then some ⟨SensorValue.parse_humidity, ["out_humidity"], 1⟩
  else if t = 0x08 then some ⟨SensorValue.parse_pressure, ["abs_barometer"], 2⟩
  else if t = 0x09 then some ⟨SensorValue.parse_pressure, ["rel_barometer"], 2⟩
  else if t = 0x0A then some ⟨SensorValue.parse_direction, ["wind_dir"], 2⟩
  else if t = 0x0B then some ⟨SensorValue.parse_speed, ["wind_speed"], 2⟩
  else if t = 0x0C then some ⟨SensorValue.parse_speed, ["gust_speed"], 2⟩
  else if t = 0x0D then some ⟨SensorValue.parse_rain, ["rain_event"], 2⟩
  else if t = 0x0E then some ⟨SensorValue.parse_rain, ["rain_rate"], 2⟩
  else if t = 0x0F then some ⟨SensorValue.parse_gain, ["rain_gain"], 2⟩
  else if t = 0x10 then some ⟨SensorValue.parse_rain, ["rain_day"], 2⟩
  else if t = 0x11 then some ⟨SensorValue.parse_rain, ["rain_week"], 2⟩
  else if t = 0x12 then some ⟨SensorValue.parse_rainlarge, ["rain_month"], 4⟩
  else if t = 0x13 then some ⟨SensorValue.parse_rainlarge, ["rain_year"], 4⟩
  else if t = 0x14 then some ⟨SensorValue.parse_rainlarge, ["rain_totals"], 4⟩
  else if t = 0x15 then some ⟨SensorValue.parse_light, ["light"], 4⟩
  else if t = 0x16 then some ⟨SensorValue.parse_uv, ["uv"], 2⟩
  else if t = 0x17 then some ⟨SensorValue.parse_uv_index, ["uv_index"], 1⟩
  else if t = 0x18 then some ⟨SensorValue.parse_datetime, ["datetime"], 6⟩
  else if t = 0x19 then some ⟨SensorValue.parse_speed, ["day_maxwind"], 2⟩
  else if t = 0x1A then some ⟨SensorValue.parse_temp, ["temp_1"], 2⟩
  else if t = 0x1B then some ⟨SensorValue.parse_temp, ["temp_2"], 2⟩
  else if t = 0x1C then some ⟨SensorValue.parse_temp, ["temp_3"], 2⟩
  else if t = 0x1D then some ⟨SensorValue.parse_temp, ["temp_4"], 2⟩
  else if t = 0x1E then some ⟨SensorValue.parse_temp, ["temp_5"], 2⟩
  else if t = 0x1F then some ⟨SensorValue.parse_temp, ["temp_6"], 2⟩
  else if t = 0x20 then some ⟨SensorValue.parse_temp, ["temp_7"], 2⟩
  else if t = 0x21 then some ⟨SensorValue.parse_temp, ["temp_8"], 2⟩
  else if t = 0x22 then some ⟨SensorValue.parse_temp, ["humidity_1"], 1⟩
  else if t = 0x23 then some ⟨SensorValue.parse_temp, ["humidity_2"], 1⟩
  else if t = 0x24 then some ⟨SensorValue.parse_temp, ["humidity_3"], 1⟩
  else if t = 0x25 then some ⟨SensorValue.parse_temp, ["humidity_4"], 1⟩
  else if t = 0x26 then some ⟨SensorValue.parse_temp, ["humidity_5"], 1⟩
  else if t = 0x27 then some ⟨SensorValue.parse_temp, ["humidity_6"], 1⟩
  else if t = 0x28 then some ⟨SensorValue.parse_temp, ["humidity_7"], 1⟩
  else if t = 0x29 then some ⟨SensorValue.parse_temp, ["humidity_8"], 1⟩
  else if t = 0x2A then some ⟨SensorValue.parse_pm25, ["pm25_1"], 2⟩
  else if t = 0x2B then some ⟨SensorValue.parse_temp, ["soil_temp_1"], 2⟩
  else if t = 0x2C then some ⟨SensorValue.parse_moist, ["soil_moist_1"], 1⟩
  else if t = 0x2D then some ⟨SensorValue.parse_temp, ["soil_temp_2"], 2⟩
  else if t = 0x2E then some ⟨SensorValue.parse_moist, ["soil_moist_2"], 1⟩
  else if t = 0x2F then some ⟨SensorValue.parse_temp, ["soil_temp_3"], 2⟩
  else if t = 0x30 then some ⟨SensorValue.parse_moist, ["soil_moist_3"], 1⟩
  else if t = 0x31 then some ⟨SensorValue.parse_temp, ["soil_temp_4"], 2⟩
  else if t = 0x32 then some ⟨SensorValue.parse_moist, ["soil_moist_4"], 1⟩
  else if t = 0x33 then some ⟨SensorValue.parse_temp, ["soil_temp_5"], 2⟩
  else if t = 0x34 then some ⟨SensorValue.parse_moist, ["soil_moist_5"], 1⟩
  else if t = 0x35 then some ⟨SensorValue.parse_temp, ["soil_temp_6"], 2⟩
  else if t = 0x36 then some ⟨SensorValue.parse_moist, ["soil_moist_6"], 1⟩
  else if t = 0x37 then some ⟨SensorValue.parse_temp, ["soil_temp_7"], 2⟩
  else if t = 0x38 then some ⟨SensorValue.parse_moist, ["soil_moist_7"], 1⟩
  else if t = 0x39 then some ⟨SensorValue.parse_temp, ["soil_temp_8"], 2⟩
  else if t = 0x3A then some ⟨SensorValue.parse_moist, ["soil_moist_8"], 1⟩
  else if t = 0x4C then some ⟨SensorValue.skip_data, [""], 16⟩
  else if t = 0x4D then some ⟨SensorValue.parse_pm25, ["pm25_1_avg_24h"], 2⟩
  else if t = 0x4E then some ⟨SensorValue.parse_pm25, ["pm25_2_avg_24h"], 2⟩
  else if t = 0x4F then some ⟨SensorValue.parse_pm25, ["pm25_3_avg_24h"], 2⟩
  else if t = 0x50 then some ⟨SensorValue.parse_pm25, ["pm25_4_avg_24h"], 2⟩
  else if t = 0x51 then some ⟨SensorValue.parse_pm25, ["pm25_2"], 2⟩
  else if t = 0x52 then some ⟨SensorValue.parse_pm25, ["pm25_3"], 2⟩
  else if t = 0x53 then some ⟨SensorValue.parse_pm25, ["pm25_4"], 2⟩
  else if t = 0x58 then some ⟨SensorValue.parse_leak, ["leak1"], 1⟩
  else if t = 0x59 then some ⟨SensorValue.parse_leak, ["leak2"], 1⟩
  else if t = 0x5A then some ⟨SensorValue.parse_leak, ["leak3"], 1⟩
  else if t = 0x5B then some ⟨SensorValue.parse_leak, ["leak4"], 1⟩
  else if t = 0x60 then some ⟨SensorValue.parse_distance, ["lightning_distance"], 1⟩
  else if t = 0x61 then some ⟨SensorValue.parse_utc, ["lightning_datetime"], 4⟩
  else if t = 0x62 then some ⟨SensorValue.parse_count, ["lightning_count"], 4⟩
  else if t = 0x70 then some ⟨SensorValue.parse_wh45,
    ["temp_wh45", "humid_wh45", "pm10_wh45", "pm10_avg_24h_wh45",
     "pm25_wh45", "pm25_avg_24h_wh45", "co2_wh45", "co2_avg_24h_wh45"], 16⟩
  else none

/-- `enum GatewayCommands` from the source. -/
inductive GatewayCommands where
  | ReadStationMac
  | LiveData
  | ReadSensorIdNew
  | ReadFirmwareVersion
deriving DecidableEq, Repr

/-- The `repr(u8)` discriminant of a command. -/
def GatewayCommands.toByte : GatewayCommands → Nat
  | .ReadStationMac => 0x26
  | .LiveData => 0x27
  | .ReadSensorIdNew => 0x3c
  | .ReadFirmwareVersion => 0x50

/-- The Rust `Debug` rendering of a command, as used in `format!` with the
debug specifier inside `send_cmd`'s messages. -/
def GatewayCommands.debugStr : GatewayCommands → String
  | .ReadStationMac => "ReadStationMac"
  | .LiveData => "LiveData"
  | .ReadSensorIdNew => "ReadSensorIdNew"
  | .ReadFirmwareVersion => "ReadFirmwareVersion"

/-- Outcome of one `connect_and_send_packet` call, as seen by `send_cmd`:
a connect/write timeout (`io::ErrorKind::TimedOut`), any other transport
error, or a received byte vector (note the source returns `Ok` with whatever
bytes were read, even zero, when only the read itself fails). -/
inductive TransportOutcome where
  | timeoutErr
  | otherErr
  | recv (resp : List Nat)

/-- What `send_cmd` did: the returned value, how many attempts were made
(transport calls performed), and after which attempt indices it slept
(`sleep(self.retry_wait)` executions, in order). -/
structure SendOutcome where
  result : Except String (List Nat)
  attemptsMade : Nat
  sleptAfter : List Nat

/-- The retry loop body of `SensorGateway::send_cmd`, one iteration per
`attempt` with `fuel = max_tries - attempt` iterations remaining.  A
transport-level error hits a `continue` and therefore skips the sleep at the
bottom of the loop; only a validation failure reaches that sleep, which is
itself skipped after the final attempt. -/
def sendFrom (cmd : GatewayCommands) (payload : List Nat)
    (transport : Nat → List Nat → TransportOutcome)
    (max_tries : Nat) : Nat → Nat → SendOutcome
  | _attempt, 0 =>
    ⟨Except.error ("Failed to obtain response to command '" ++ cmd.debugStr
        ++ "' after " ++ toString max_tries ++ " attempts"), 0, []⟩
  | attempt, fuel + 1 =>
    let packet := SensorGateway.build_cmd_packet cmd.toByte payload
    match transport attempt packet with
    | .timeoutErr =>
      let r := sendFrom cmd payload transport max_tries (attempt + 1) fuel
      ⟨r.result, r.attemptsMade + 1, r.sleptAfter⟩
    | .otherErr =>
      let r := sendFrom cmd payload transport max_tries (attempt + 1) fuel
      ⟨r.result, r.attemptsMade + 1, r.sleptAfter⟩
    | .recv resp =>
      match SensorGateway.validate_response resp cmd.toByte with
      | Except.ok _ => ⟨Except.ok resp, 1, []⟩
      | Except.error _ =>
        let r := sendFrom cmd payload transport max_tries (attempt + 1) fuel
        ⟨r.result, r.attemptsMade + 1,
          (if attempt < max_tries - 1 then [attempt] else []) ++ r.sleptAfter⟩

/-- `SensorGateway::send_cmd`, with the network abstracted as a function from
(attempt number, request packet) to a `TransportOutcome`. -/
def SensorGateway.send_cmd (max_tries : Nat) (cmd : GatewayCommands)
    (payload : List Nat) (transport : Nat → List Nat → TransportOutcome) :
    SendOutcome :=
  sendFrom cmd payload transport max_tries 0 max_tries

/-- A `serde_json::Value` as produced by `SensorValue::to_json_val`:
serde distinguishes integer numbers from floats. -/
inductive Json where
  | null
  | jint (z : ℤ)
  | jfloat (q : ℚ)
  | jstr (s : String)
deriving DecidableEq, Repr

/-- `f64::round`: round half away from zero. -/
def roundHalfAway (q : ℚ) : ℤ :=
  if 0 ≤ q then ⌊q + 1 / 2⌋ else -⌊-q + 1 / 2⌋

/-- `SensorValue::round`: `(x * 100.0).round() / 100.0`. -/
def round2 (q : ℚ) : ℚ := (roundHalfAway (q * 100) : ℚ) / 100

/-- The literal battery-state strings of the `Battery` arm of
`to_json_val`. -/
def batteryStateStr : SensorBatteryState → String
  | .Ok => "ok"
  | .Low => "low"
  | .Connected => "connected"
  | .Unknown => "unknown"

/-- `SensorValue::to_json_val`: the projection of a typed value to its JSON
representation. -/
def SensorValue.to_json_val : SensorValue → Json
  | .Empty => .null
  | .Temp v => .jfloat (round2 v)
  | .Humidity v => .jfloat (round2 v)
  | .Pressure v => .jfloat (round2 v)
  | .Speed v => .jfloat (round2 v)
  | .Rain v => .jfloat (round2 v)
  | .RainLarge v => .jfloat (round2 v)
  | .Distance v => .jint v
  | .Direction v => .jint v
  | .UtcTime v => .jint v
  | .Count v => .jint (v : ℤ)
  | .Gain v => .jfloat (round2 v)
  | .DateTime v => .jstr ("dt:" ++ hex2 v.b0 ++ " " ++ hex2 v.b1 ++ " "
      ++ hex2 v.b2 ++ " " ++ hex2 v.b3 ++ " " ++ hex2 v.b4 ++ " " ++ hex2 v.b5)
  | .Pm10 v => .jfloat (round2 v)
  | .Pm25 v => .jfloat (round2 v)
  | .Co2 v => .jint v
  | .Light v => .jfloat (round2 v)
  | .Uv v => .jfloat (round2 v)
  | .UvIndex v => .jfloat (round2 v)
  | .Leak v => .jfloat (round2 v)
  | .Moist v => .jfloat (round2 v)
  | .Battery v => .jstr (batteryStateStr v)

namespace SensorMetadata

/-- `SensorMetadata::parse_type`: canonical short name by id range. -/
def parse_type (id : Nat) : Option String :=
  if id = 0x0 then some "wh65"
  else if id = 0x1 then some "wh68"
  else if id = 0x2 then some "wh80"
  else if id = 0x3 then some "wh40"
  else if id = 0x4 then some "wh25"
  else if id = 0x5 then some "wh26"
  else if 0x6 ≤ id ∧ id ≤ 0xd then some ("wh31_ch" ++ toString (id - 5))
  else if 0xe ≤ id ∧ id ≤ 0x15 then some ("wh51_ch" ++ toString (id - 0xd))
  else if 0x16 ≤ id ∧ id ≤ 0x19 then some ("wh41_ch" ++ toString (id - 0x15))
  else if id = 0x1a then some "wh57"
  else if 0x1b ≤ id ∧ id ≤ 0x1e then some ("wh55_ch" ++ toString (id - 0x1a))
  else if 0x1f ≤ id ∧ id ≤ 0x25 then some ("wh34_ch" ++ toString (id - 0x1e))
  else if id = 0x27 then some "wh45"
  else if 0x28 ≤ id ∧ id ≤ 0x2f then some ("wh35_ch" ++ toString (id - 0x27))
  else none

/-- `SensorMetadata::parse_type_desc`: human-readable description. -/
def parse_type_desc (id : Nat) : Option String :=
  if id = 0x0 then some "WH-65"
  else if id = 0x1 then some "WH-68"
  else if id = 0x2 then some "WH-80"
  else if id = 0x3 then some "WH-40"
  else if id = 0x4 then some "WH-25"
  else if id = 0x5 then some "WH-26"
  else if 0x6 ≤ id ∧ id ≤ 0xd then some ("WH-31 channel " ++ toString (id - 5))
  else if 0xe ≤ id ∧ id ≤ 0x15 then some ("WH-51 channel " ++ toString (id - 0xd))
  else if 0x16 ≤ id ∧ id ≤ 0x19 then some ("WH-41 channel " ++ toString (id - 0x15))
  else if id = 0x1a then some "WH-57"
  else if 0x1b ≤ id ∧ id ≤ 0x1e then some ("WH-55 channel " ++ toString (id - 0x1a))
  else if 0x1f ≤ id ∧ id ≤ 0x25 then some ("WH-34 channel " ++ toString (id - 0x1e))
  else if id = 0x27 then some "WH-45"
  else if 0x28 ≤ id ∧ id ≤ 0x2f then some ("WH-35 channel " ++ toString (id - 0x27))
  else none

/-- `SensorMetadata::parse_battery_state`: three-bucket battery
classification selected by type id, match arms in source order.  The `f64`
literal `1.2` is embedded as `6 / 5`; no double lies strictly between the
two, so `≤` agrees on every machine input. -/
def parse_battery_state (id : Nat) (battery : ℚ) : Option SensorBatteryState :=
  if id = 0 ∨ id = 4 ∨ (5 ≤ id ∧ id ≤ 0xd) then
    if battery = 1 then some SensorBatteryState.Low
    else if battery = 0 then some SensorBatteryState.Ok
    else some SensorBatteryState.Unknown
  else if (0x16 ≤ id ∧ id ≤ 0x1e) ∨ id = 0x27 then
    if battery ≤ 1 then some SensorBatteryState.Low
    else if battery ≤ 5 then some SensorBatteryState.Ok
    else if battery = 6 then some SensorBatteryState.Connected
    else some SensorBatteryState.Unknown
  else if (1 ≤ id ∧ id ≤ 3) ∨ (0xe ≤ id ∧ id ≤ 0x15)
      ∨ (0x1f ≤ id ∧ id ≤ 0x26) ∨ (0x28 ≤ id ∧ id ≤ 0x30) then
    if battery ≤ 6 / 5 then some SensorBatteryState.Low
    else some SensorBatteryState.Ok
  else some SensorBatteryState.Unknown

end SensorMetadata

/-- `struct SensorMetadata`: one sensor-inventory record. -/
structure SensorMetadata where
  type_id : Nat
  type_id_str : String
  type_desc : String
  address : Nat
  battery_level : Option ℚ
  battery_state : Option SensorBatteryState
  signal : Nat
deriving DecidableEq, Repr

/-- `SensorMetadata::new`.  The source unwraps `battery` (all call sites pass
`Some`); the unreachable `None` case is modelled with a default of `0`. -/
def SensorMetadata.new (type_id : Nat) (address : Nat) (battery : Option ℚ)
    (signal : Nat) : SensorMetadata :=
  { type_id := type_id
    type_id_str := (SensorMetadata.parse_type type_id).getD "unknown"
    type_desc := (SensorMetadata.parse_type_desc type_id).getD "unknown"
    address := address
    battery_level := battery
    battery_state := SensorMetadata.parse_battery_state type_id (battery.getD 0)
    signal := signal }

/-- `HashMap::insert` on the metadata map modelled over an association list:
replace the value at an existing key, otherwise append. -/
def insertAssoc (m : List (Nat × SensorMetadata)) (k : Nat)
    (v : SensorMetadata) : List (Nat × SensorMetadata) :=
  if m.any (fun p => p.1 = k) then m.map (fun p => if p.1 = k then (k, v) else p)
  else m ++ [(k, v)]

/-- The record loop of `Sensors::update_metadata` over the enumerated-sensor
region, record suffix by record suffix.  A full 7-byte record is consumed per
iteration; `index < data.len()` with fewer than 7 bytes remaining makes the
source panic on `data[(index + 1)..(index + 5)]` / `data[index + 5]` /
`data[index + 6]`. -/
def metaLoop : List Nat → List (Nat × SensorMetadata) →
    RResult (List (Nat × SensorMetadata))
  | [], m => .ok m
  | t :: a1 :: a2 :: a3 :: a4 :: ba :: sg :: rest, m =>
    let address := be4 a1 a2 a3 a4
    metaLoop rest
      (if address ≠ 0xffffffff
       then insertAssoc m address (SensorMetadata.new t address (some (ba : ℚ)) sg)
       else m)
  | _, _ => .panic

/-- `Sensors::update_metadata`.  An empty input yields an empty map; otherwise
`id_data[3..5]` is read as a big-endian length (panicking when fewer than 5
bytes exist), the region `id_data[5..5 + data_size - 4]` is sliced (panicking
when the range is invalid), and the record loop runs over it. -/
def Sensors.update_metadata (id_data : List Nat) :
    RResult (List (Nat × SensorMetadata)) :=
  if id_data.length = 0 then .ok []
  else if id_data.length < 5 then .panic
  else
    let data_size := be2 (id_data.getD 3 0) (id_data.getD 4 0)
    let hi := 5 + data_size - 4
    if 5 ≤ hi ∧ hi ≤ id_data.length then
      metaLoop ((id_data.drop 5).take (hi - 5)) []
    else .panic

/-- The dispatch loop of `Sensors::parse_live_data`, cursor suffix by cursor
suffix: read a type id, look it up (an unknown id fails the whole parse),
take `size` bytes when available and decode them (a decode failure drops the
record), advance by `1 + size`.  The inner zip `field_names[i]` panics when a
decoder emits more values than there are names. -/
def Sensors.parse_live_data : List Nat → RResult (List (List SensorData))
  | [] => .ok []
  | t :: rest =>
    match parsers t with
    | none => .err ("Failed to find parser for type id 0x" ++ hexByteStr t)
    | some pi =>
      if pi.size ≤ rest.length then
        match pi.parse_fn (rest.take pi.size) with
        | .ok vals =>
          if vals.length ≤ pi.field_names.length then
            match Sensors.parse_live_data (rest.drop pi.size) with
            | .ok gs => .ok (List.zipWith SensorData.mk pi.field_names vals :: gs)
            | r => r
          else .panic
        | .err _ => Sensors.parse_live_data (rest.drop pi.size)
        | .panic => .panic
      else Sensors.parse_live_data (rest.drop pi.size)
termination_by l => l.length
decreasing_by all_goals (simp [List.length_drop]; omega)

/-- `SensorGateway::parse_live_data`: reads `response[3..5]` as the payload
size (panicking on fewer than 5 bytes), compares it against the response
length, then dispatches on `response[5..5 + payload_size - 4]` (panicking
when that range is invalid). -/
def SensorGateway.parse_live_data (response : List Nat) :
    RResult (List (List SensorData)) :=
  if response.length < 5 then .panic
  else
    let payload_size := be2 (response.getD 3 0) (response.getD 4 0)
    if response.length < payload_size then
      .err ("Payload size does not match response length len: "
        ++ toString response.length ++ " payload:" ++ toString (payload_size + 5))
    else
      let hi := 5 + payload_size - 4
      if 5 ≤ hi ∧ hi ≤ response.length then
        Sensors.parse_live_data ((response.drop 5).take (hi - 5))
      else .panic

/-- Spec-side walker (from §4.3 of the spec): the first record position whose
type-id byte is absent from the registry, walking records from the start and
advancing by `1 + size` for registered ids; `none` when the walk exhausts the
buffer without meeting an unregistered id. -/
def firstUnregistered : List Nat → Option Nat
  | [] => none
  | t :: rest =>
    match parsers t with
    | none => some t
    | some pi => firstUnregistered (rest.drop pi.size)
termination_by l => l.length
decreasing_by all_goals (simp [List.length_drop]; omega)

/-- Spec-side reading groups (from §4.3 of the spec): one group per record
whose declared bytes are present and whose decoder succeeds, zipping field
names with decoded values positionally; failing or truncated records are
dropped, and the walk stops at an unregistered id. -/
def goodGroups : List Nat → List (List SensorData)
  | [] => []
  | t :: rest =>
    match parsers t with
    | none => []
    | some pi =>
      if pi.size ≤ rest.length then
        match pi.parse_fn (rest.take pi.size) with
        | .ok vals =>
          List.zipWith SensorData.mk pi.field_names vals
            :: goodGroups (rest.drop pi.size)
        | _ => goodGroups (rest.drop pi.size)
      else goodGroups (rest.drop pi.size)
termination_by l => l.length
decreasing_by all_goals (simp [List.length_drop]; omega)

/-- A buffer that the record walk consumes exactly: every type id met is
registered and every record's declared bytes are present, with the walk
ending precisely at the end of the buffer. -/
def completesCleanly : List Nat → Bool
  | [] => true
  | t :: rest =>
    match parsers t with
    | none => false
    | some pi =>
      if pi.size ≤ rest.length then completesCleanly (rest.drop pi.size)
      else false
termination_by l => l.length
decreasing_by all_goals (simp [List.length_drop]; omega)

/-- The binary battery bucket of §4.5: ids 0, 4, 5–13. -/
def binaryBucket (id : Nat) : Prop := id = 0 ∨ id = 4 ∨ (5 ≤ id ∧ id ≤ 13)

/-- The integer-step battery bucket of §4.5: ids 0x16–0x1e and 0x27. -/
def integerBucket (id : Nat) : Prop := (0x16 ≤ id ∧ id ≤ 0x1e) ∨ id = 0x27

/-- The voltage battery bucket of §4.5: ids 1–3, 0xe–0x15, 0x1f–0x26,
0x28–0x30. -/
def voltageBucket (id : Nat) : Prop :=
  (1 ≤ id ∧ id ≤ 3) ∨ (0xe ≤ id ∧ id ≤ 0x15)
    ∨ (0x1f ≤ id ∧ id ≤ 0x26) ∨ (0x28 ≤ id ∧ id ≤ 0x30)

instance (id : Nat) : Decidable (binaryBucket id) := by
  unfold binaryBucket; infer_instance

instance (id : Nat) : Decidable (integerBucket id) := by
  unfold integerBucket; infer_instance

instance (id : Nat) : Decidable (voltageBucket id) := by
  unfold voltageBucket; infer_instance

/-- Attempt `i` fails: the transport either errors or hands back a response
that does not validate against the command. -/
def attemptFails (transport : Nat → List Nat → TransportOutcome)
    (cmd : GatewayCommands) (packet : List Nat) (i : Nat) : Prop :=
  match transport i packet with
  | .recv resp => SensorGateway.validate_response resp cmd.toByte ≠ Except.ok ()
  | _ => True

/-- Attempt `i` produced a transport-level exchange whose response failed
validation (the only kind of failed attempt after which `send_cmd`'s loop
reaches its sleep). -/
def recvInvalid (transport : Nat → List Nat → TransportOutcome)
    (cmd : GatewayCommands) (packet : List Nat) (i : Nat) : Bool :=
  match transport i packet with
  | .recv resp =>
    match SensorGateway.validate_response resp cmd.toByte with
    | Except.ok _ => false
    | Except.error _ => true
  | _ => false

/-- A decoder that can never panic and always emits exactly one value on
success (true of every registered single-value decoder and of `skip_data`). -/
def SafeFn (f : List Nat → RResult (List SensorValue)) : Prop :=
  ∀ l, f l ≠ RResult.panic ∧ ∀ vs, f l = RResult.ok vs → vs.length = 1

/-- A registry entry is well-behaved when fed exactly its declared size:
its decoder does not panic, and a successful decode emits no more values
than there are field names. -/
def GoodEntry (pi : ParseInfo) : Prop :=
  ∀ l : List Nat, l.length = pi.size →
    pi.parse_fn l ≠ RResult.panic ∧
      ∀ vs, pi.parse_fn l = RResult.ok vs → vs.length ≤ pi.field_names.length

theorem safe_parse_temp : SafeFn SensorValue.parse_temp := by
  intro l; unfold SensorValue.parse_temp; split <;> simp

theorem safe_parse_humidity : SafeFn SensorValue.parse_humidity := by
  intro l; unfold SensorValue.parse_humidity; split <;> simp

theorem safe_parse_moist : SafeFn SensorValue.parse_moist := by
  intro l; unfold SensorValue.parse_moist; split <;> simp

theorem safe_parse_pressure : SafeFn SensorValue.parse_pressure := by
  intro l; unfold SensorValue.parse_pressure; split <;> simp

theorem safe_parse_speed : SafeFn SensorValue.parse_speed := by
  intro l; unfold SensorValue.parse_speed; split <;> simp

theorem safe_parse_rain : SafeFn SensorValue.parse_rain := by
  intro l; unfold SensorValue.parse_rain; split <;> simp

theorem safe_parse_rainlarge : SafeFn SensorValue.parse_rainlarge := by
  intro l; unfold SensorValue.parse_rainlarge; split <;> simp

theorem safe_parse_distance : SafeFn SensorValue.parse_distance := by
  intro l; unfold SensorValue.parse_distance; split <;> simp

theorem safe_parse_direction : SafeFn SensorValue.parse_direction := by
  intro l; unfold SensorValue.parse_direction; split <;> simp

theorem safe_parse_count : SafeFn SensorValue.parse_count := by
  intro l; unfold SensorValue.parse_count; split <;> simp

theorem safe_parse_gain : SafeFn SensorValue.parse_gain := by
  intro l; unfold SensorValue.parse_gain; split <;> simp

theorem safe_parse_light : SafeFn SensorValue.parse_light := by
  intro l; unfold SensorValue.parse_light; split <;> simp

theorem safe_parse_uv : SafeFn SensorValue.parse_uv := by
  intro l; unfold SensorValue.parse_uv; split <;> simp

theorem safe_parse_uv_index : SafeFn SensorValue.parse_uv_index := by
  intro l; unfold SensorValue.parse_uv_index; split <;> simp

theorem safe_parse_datetime : SafeFn SensorValue.parse_datetime := by
  intro l; unfold SensorValue.parse_datetime; split <;> simp

theorem safe_parse_pm25 : SafeFn SensorValue.parse_pm25 := by
  intro l; unfold SensorValue.parse_pm25; split <;> simp

theorem safe_parse_leak : SafeFn SensorValue.parse_leak := by
  intro l; unfold SensorValue.parse_leak; split <;> simp

theorem safe_parse_co2 : SafeFn SensorValue.parse_co2 := by
  intro l; unfold SensorValue.parse_co2; split <;> simp

theorem safe_parse_utc : SafeFn SensorValue.parse_utc := by
  intro l; unfold SensorValue.parse_utc; split <;> simp

theorem safe_skip_data : SafeFn SensorValue.skip_data := by
  intro l; unfold SensorValue.skip_data; simp

/-- On any 16-byte input — the size the registry hands it — `parse_wh45`
fails its `len == 6` guard and returns the length error. -/
theorem wh45_at16 (l : List Nat) (h : l.length = 16) :
    SensorValue.parse_wh45 l = RResult.err "Invalid data length for wh45 sensor" := by
  unfold SensorValue.parse_wh45
  rw [if_pos (by omega)]

theorem goodEntry_of_safe (f : List Nat → RResult (List SensorValue))
    (names : List String) (size : Nat) (hf : SafeFn f) (hn : 1 ≤ names.length) :
    GoodEntry ⟨f, names, size⟩ := by
  intro l _
  refine ⟨(hf l).1, fun vs hv => ?_⟩
  rw [(hf l).2 vs hv]
  exact hn

theorem goodEntry_wh45 : GoodEntry ⟨SensorValue.parse_wh45,
    ["temp_wh45", "humid_wh45", "pm10_wh45", "pm10_avg_24h_wh45",
     "pm25_wh45", "pm25_avg_24h_wh45", "co2_wh45", "co2_avg_24h_wh45"], 16⟩ := by
  intro l hl
  dsimp only at hl ⊢
  rw [wh45_at16 l hl]
  exact ⟨by simp, by simp⟩


/-- Every entry of the fixed registry is well-behaved in the `GoodEntry`
sense (this is about non-panicking and name counts, not about successful
decoding: several entries always fail on their declared size). -/
theorem registry_good (t : Nat) (pi : ParseInfo) (h : parsers t = some pi) :
    GoodEntry pi := by
  unfold parsers at h
  by_cases e0 : t = 1
  · rw [if_pos e0] at h
    injection h with h
    subst h
    exact goodEntry_of_safe _ _ _ safe_parse_temp (by decide)
  rw [if_neg e0] at h
  by_cases e1 : t = 2
  · rw [if_pos e1] at h
    injection h with h
    subst h
    exact goodEntry_of_safe _ _ _ safe_parse_temp (by decide)
  rw [if_neg e1] at h
  by_cases e2 : t = 4
  · rw [if_pos e2] at h
    injection h with h
    subst h
    exact goodEntry_of_safe _ _ _ safe_parse_temp (by decide)
  rw [if_neg e2] at h
  by_cases e3 : t = 5
  · rw [if_pos e3] at h
    injection h with h
    subst h
    exact goodEntry_of_safe _ _ _ safe_parse_temp (by decide)
  rw [if_neg e3] at h
  by_cases e4 : t = 6
  · rw [if_pos e4] at h
    injection h with h
    subst h
    exact goodEntry_of_safe _ _ _ safe_parse_humidity (by decide)
  rw [if_neg e4] at h
  by_cases e5 : t = 7
  · rw [if_pos e5] at h
    injection h with h
    subst h
    exact goodEntry_of_safe _ _ _ safe_parse_humidity (by decide)
  rw [if_neg e5] at h
  by_cases e6 : t = 8
  · rw [if_pos e6] at h
    injection h with h
    subst h
    exact goodEntry_of_safe _ _ _ safe_parse_pressure (by decide)
  rw [if_neg e6] at h
  by_cases e7 : t = 9
  · rw [if_pos e7] at h
    injection h with h
    subst h
    exact goodEntry_of_safe _ _ _ safe_parse_pressure (by decide)
  rw [if_neg e7] at h
  by_cases e8 : t = 10
  · rw [if_pos e8] at h
    injection h with h
    subst h
    exact goodEntry_of_safe _ _ _ safe_parse_direction (by decide)
  rw [if_neg e8] at h
  by_cases e9 : t = 11
  · rw [if_pos e9] at h
    injection h with h
    subst h
    exact goodEntry_of_safe _ _ _ safe_parse_speed (by decide)
  rw [if_neg e9] at h
  by_cases e10 : t = 12
  · rw [if_pos e10] at h
    injection h with h
    subst h
    exact goodEntry_of_safe _ _ _ safe_parse_speed (by decide)
  rw [if_neg e10] at h
  by_cases e11 : t = 13
  · rw [if_pos e11] at h
    injection h with h
    subst h
    exact goodEntry_of_safe _ _ _ safe_parse_rain (by decide)
  rw [if_neg e11] at h
  by_cases e12 : t = 14
  · rw [if_pos e12] at h
    injection h with h
    subst h
    exact goodEntry_of_safe _ _ _ safe_parse_rain (by decide)
  rw [if_neg e12] at h
  by_cases e13 : t = 15
  · rw [if_pos e13] at h
    injection h with h
    subst h
    exact goodEntry_of_safe _ _ _ safe_parse_gain (by decide)
  rw [if_neg e13] at h
  by_cases e14 : t = 16
  · rw [if_pos e14] at h
    injection h with h
    subst h
    exact goodEntry_of_safe _ _ _ safe_parse_rain (by decide)
  rw [if_neg e14] at h
  by_cases e15 : t = 17
  · rw [if_pos e15] at h
    injection h with h
    subst h
    exact goodEntry_of_safe _ _ _ safe_parse_rain (by decide)
  rw [if_neg e15] at h
  by_cases e16 : t = 18
  · rw [if_pos e16] at h
    injection h with h
    subst h
    exact goodEntry_of_safe _ _ _ safe_parse_rainlarge (by decide)
  rw [if_neg e16] at h
  by_cases e17 : t = 19
  · rw [if_pos e17] at h
    injection h with h
    subst h
    exact goodEntry_of_safe _ _ _ safe_parse_rainlarge (by decide)
  rw [if_neg e17] at h
  by_cases e18 : t = 20
  · rw [if_pos e18] at h
    injection h with h
    subst h
    exact goodEntry_of_safe _ _ _ safe_parse_rainlarge (by decide)
  rw [if_neg e18] at h
  by_cases e19 : t = 21
  · rw [if_pos e19] at h
    injection h with h
    subst h
    exact goodEntry_of_safe _ _ _ safe_parse_light (by decide)
  rw [if_neg e19] at h
  by_cases e20 : t = 22
  · rw [if_pos e20] at h
    injection h with h
    subst h
    exact goodEntry_of_safe _ _ _ safe_parse_uv (by decide)
  rw [if_neg e20] at h
  by_cases e21 : t = 23
  · rw [if_pos e21] at h
    injection h with h
    subst h
    exact goodEntry_of_safe _ _ _ safe_parse_uv_index (by decide)
  rw [if_neg e21] at h
  by_cases e22 : t = 24
  · rw [if_pos e22] at h
    injection h with h
    subst h
    exact goodEntry_of_safe _ _ _ safe_parse_datetime (by decide)
  rw [if_neg e22] at h
  by_cases e23 : t = 25
  · rw [if_pos e23] at h
    injection h with h
    subst h
    exact goodEntry_of_safe _ _ _ safe_parse_speed (by decide)
  rw [if_neg e23] at h
  by_cases e24 : t = 26
  · rw [if_pos e24] at h
    injection h with h
    subst h
    exact goodEntry_of_safe _ _ _ safe_parse_temp (by decide)
  rw [if_neg e24] at h
  by_cases e25 : t = 27
  · rw [if_pos e25] at h
    injection h with h
    subst h
    exact goodEntry_of_safe _ _ _ safe_parse_temp (by decide)
  rw [if_neg e25] at h
  by_cases e26 : t = 28
  · rw [if_pos e26] at h
    injection h with h
    subst h
    exact goodEntry_of_safe _ _ _ safe_parse_temp (by decide)
  rw [if_neg e26] at h
  by_cases e27 : t = 29
  · rw [if_pos e27] at h
    injection h with h
    subst h
    exact goodEntry_of_safe _ _ _ safe_parse_temp (by decide)
  rw [if_neg e27] at h
  by_cases e28 : t = 30
  · rw [if_pos e28] at h
    injection h with h
    subst h
    exact goodEntry_of_safe _ _ _ safe_parse_temp (by decide)
  rw [if_neg e28] at h
  by_cases e29 : t = 31
  · rw [if_pos e29] at h
    injection h with h
    subst h
    exact goodEntry_of_safe _ _ _ safe_parse_temp (by decide)
  rw [if_neg e29] at h
  by_cases e30 : t = 32
  · rw [if_pos e30] at h
    injection h with h
    subst h
    exact goodEntry_of_safe _ _ _ safe_parse_temp (by decide)
  rw [if_neg e30] at h
  by_cases e31 : t = 33
  · rw [if_pos e31] at h
    injection h with h
    subst h
    exact goodEntry_of_safe _ _ _ safe_parse_temp (by decide)
  rw [if_neg e31] at h
  by_cases e32 : t = 34
  · rw [if_pos e32] at h
    injection h with h
    subst h
    exact goodEntry_of_safe _ _ _ safe_parse_temp (by decide)
  rw [if_neg e32] at h
  by_cases e33 : t = 35
  · rw [if_pos e33] at h
    injection h with h
    subst h
    exact goodEntry_of_safe _ _ _ safe_parse_temp (by decide)
  rw [if_neg e33] at h
  by_cases e34 : t = 36
  · rw [if_pos e34] at h
    injection h with h
    subst h
    exact goodEntry_of_safe _ _ _ safe_parse_temp (by decide)
  rw [if_neg e34] at h
  by_cases e35 : t = 37
  · rw [if_pos e35] at h
    injection h with h
    subst h
    exact goodEntry_of_safe _ _ _ safe_parse_temp (by decide)
  rw [if_neg e35] at h
  by_cases e36 : t = 38
  · rw [if_pos e36] at h
    injection h with h
    subst h
    exact goodEntry_of_safe _ _ _ safe_parse_temp (by decide)
  rw [if_neg e36] at h
  by_cases e37 : t = 39
  · rw [if_pos e37] at h
    injection h with h
    subst h
    exact goodEntry_of_safe _ _ _ safe_parse_temp (by decide)
  rw [if_neg e37] at h
  by_cases e38 : t = 40
  · rw [if_pos e38] at h
    injection h with h
    subst h
    exact goodEntry_of_safe _ _ _ safe_parse_temp (by decide)
  rw [if_neg e38] at h
  by_cases e39 : t = 41
  · rw [if_pos e39] at h
    injection h with h
    subst h
    exact goodEntry_of_safe _ _ _ safe_parse_temp (by decide)
  rw [if_neg e39] at h
  by_cases e40 : t = 42
  · rw [if_pos e40] at h
    injection h with h
    subst h
    exact goodEntry_of_safe _ _ _ safe_parse_pm25 (by decide)
  rw [if_neg e40] at h
  by_cases e41 : t = 43
  · rw [if_pos e41] at h
    injection h with h
    subst h
    exact goodEntry_of_safe _ _ _ safe_parse_temp (by decide)
  rw [if_neg e41] at h
  by_cases e42 : t = 44
  · rw [if_pos e42] at h
    injection h with h
    subst h
    exact goodEntry_of_safe _ _ _ safe_parse_moist (by decide)
  rw [if_neg e42] at h
  by_cases e43 : t = 45
  · rw [if_pos e43] at h
    injection h with h
    subst h
    exact goodEntry_of_safe _ _ _ safe_parse_temp (by decide)
  rw [if_neg e43] at h
  by_cases e44 : t = 46
  · rw [if_pos e44] at h
    injection h with h
    subst h
    exact goodEntry_of_safe _ _ _ safe_parse_moist (by decide)
  rw [if_neg e44] at h
  by_cases e45 : t = 47
  · rw [if_pos e45] at h
    injection h with h
    subst h
    exact goodEntry_of_safe _ _ _ safe_parse_temp (by decide)
  rw [if_neg e45] at h
  by_cases e46 : t = 48
  · rw [if_pos e46] at h
    injection h with h
    subst h
    exact goodEntry_of_safe _ _ _ safe_parse_moist (by decide)
  rw [if_neg e46] at h
  by_cases e47 : t = 49
  · rw [if_pos e47] at h
    injection h with h
    subst h
    exact goodEntry_of_safe _ _ _ safe_parse_temp (by decide)
  rw [if_neg e47] at h
  by_cases e48 : t = 50
  · rw [if_pos e48] at h
    injection h with h
    subst h
    exact goodEntry_of_safe _ _ _ safe_parse_moist (by decide)
  rw [if_neg e48] at h
  by_cases e49 : t = 51
  · rw [if_pos e49] at h
    injection h with h
    subst h
    exact goodEntry_of_safe _ _ _ safe_parse_temp (by decide)
  rw [if_neg e49] at h
  by_cases e50 : t = 52
  · rw [if_pos e50] at h
    injection h with h
    subst h
    exact goodEntry_of_safe _ _ _ safe_parse_moist (by decide)
  rw [if_neg e50] at h
  by_cases e51 : t = 53
  · rw [if_pos e51] at h
    injection h with h
    subst h
    exact goodEntry_of_safe _ _ _ safe_parse_temp (by decide)
  rw [if_neg e51] at h
  by_cases e52 : t = 54
  · rw [if_pos e52] at h
    injection h with h
    subst h
    exact goodEntry_of_safe _ _ _ safe_parse_moist (by decide)
  rw [if_neg e52] at h
  by_cases e53 : t = 55
  · rw [if_pos e53] at h
    injection h with h
    subst h
    exact goodEntry_of_safe _ _ _ safe_parse_temp (by decide)
  rw [if_neg e53] at h
  by_cases e54 : t = 56
  · rw [if_pos e54] at h
    injection h with h
    subst h
    exact goodEntry_of_safe _ _ _ safe_parse_moist (by decide)
  rw [if_neg e54] at h
  by_cases e55 : t = 57
  · rw [if_pos e55] at h
    injection h with h
    subst h
    exact goodEntry_of_safe _ _ _ safe_parse_temp (by decide)
  rw [if_neg e55] at h
  by_cases e56 : t = 58
  · rw [if_pos e56] at h
    injection h with h
    subst h
    exact goodEntry_of_safe _ _ _ safe_parse_moist (by decide)
  rw [if_neg e56] at h
  by_cases e57 : t = 76
  · rw [if_pos e57] at h
    injection h with h
    subst h
    exact goodEntry_of_safe _ _ _ safe_skip_data (by decide)
  rw [if_neg e57] at h
  by_cases e58 : t = 77
  · rw [if_pos e58] at h
    injection h with h
    subst h
    exact goodEntry_of_safe _ _ _ safe_parse_pm25 (by decide)
  rw [if_neg e58] at h
  by_cases e59 : t = 78
  · rw [if_pos e59] at h
    injection h with h
    subst h
    exact goodEntry_of_safe _ _ _ safe_parse_pm25 (by decide)
  rw [if_neg e59] at h
  by_cases e60 : t = 79
  · rw [if_pos e60] at h
    injection h with h
    subst h
    exact goodEntry_of_safe _ _ _ safe_parse_pm25 (by decide)
  rw [if_neg e60] at h
  by_cases e61 : t = 80
  · rw [if_pos e61] at h
    injection h with h
    subst h
    exact goodEntry_of_safe _ _ _ safe_parse_pm25 (by decide)
  rw [if_neg e61] at h
  by_cases e62 : t = 81
  · rw [if_pos e62] at h
    injection h with h
    subst h
    exact goodEntry_of_safe _ _ _ safe_parse_pm25 (by decide)
  rw [if_neg e62] at h
  by_cases e63 : t = 82
  · rw [if_pos e63] at h
    injection h with h
    subst h
    exact goodEntry_of_safe _ _ _ safe_parse_pm25 (by decide)
  rw [if_neg e63] at h
  by_cases e64 : t = 83
  · rw [if_pos e64] at h
    injection h with h
    subst h
    exact goodEntry_of_safe _ _ _ safe_parse_pm25 (by decide)
  rw [if_neg e64] at h
  by_cases e65 : t = 88
  · rw [if_pos e65] at h
    injection h with h
    subst h
    exact goodEntry_of_safe _ _ _ safe_parse_leak (by decide)
  rw [if_neg e65] at h
  by_cases e66 : t = 89
  · rw [if_pos e66] at h
    injection h with h
    subst h
    exact goodEntry_of_safe _ _ _ safe_parse_leak (by decide)
  rw [if_neg e66] at h
  by_cases e67 : t = 90
  · rw [if_pos e67] at h
    injection h with h
    subst h
    exact goodEntry_of_safe _ _ _ safe_parse_leak (by decide)
  rw [if_neg e67] at h
  by_cases e68 : t = 91
  · rw [if_pos e68] at h
    injection h with h
    subst h
    exact goodEntry_of_safe _ _ _ safe_parse_leak (by decide)
  rw [if_neg e68] at h
  by_cases e69 : t = 96
  · rw [if_pos e69] at h
    injection h with h
    subst h
    exact goodEntry_of_safe _ _ _ safe_parse_distance (by decide)
  rw [if_neg e69] at h
  by_cases e70 : t = 97
  · rw [if_pos e70] at h
    injection h with h
    subst h
    exact goodEntry_of_safe _ _ _ safe_parse_utc (by decide)
  rw [if_neg e70] at h
  by_cases e71 : t = 98
  · rw [if_pos e71] at h
    injection h with h
    subst h
    exact goodEntry_of_safe _ _ _ safe_parse_count (by decide)
  rw [if_neg e71] at h
  by_cases e72 : t = 112
  · rw [if_pos e72] at h
    injection h with h
    subst h
    exact goodEntry_wh45
  rw [if_neg e72] at h
  exact Option.noConfusion h
theorem live_data_refines (data : List Nat) :
    Sensors.parse_live_data data =
      (match firstUnregistered data with
       | some u => RResult.err ("Failed to find parser for type id 0x" ++ hexByteStr u)
       | none => RResult.ok (goodGroups data)) := by
  have H : ∀ (n : Nat) (d : List Nat), d.length ≤ n →
      Sensors.parse_live_data d =
        (match firstUnregistered d with
         | some u => RResult.err ("Failed to find parser for type id 0x" ++ hexByteStr u)
         | none => RResult.ok (goodGroups d)) := by
    intro n
    induction n with
    | zero =>
      intro d hd
      have hnil : d = [] := List.eq_nil_of_length_eq_zero (Nat.le_zero.mp hd)
      subst hnil
      simp [Sensors.parse_live_data, firstUnregistered, goodGroups]
    | succ n ih =>
      intro d hd
      match d with
      | [] => simp [Sensors.parse_live_data, firstUnregistered, goodGroups]
      | t :: rest =>
        have hlen : rest.length ≤ n := by
          simp only [List.length_cons] at hd; omega
        cases hp : parsers t with
        | none =>
          simp [Sensors.parse_live_data, firstUnregistered, hp]
        | some pi =>
          have hdrop : (rest.drop pi.size).length ≤ n := by
            simp [List.length_drop]; omega
          have ihd := ih (rest.drop pi.size) hdrop
          by_cases hsz : pi.size ≤ rest.length
          · have hgood := registry_good t pi hp (rest.take pi.size)
              (by simp [List.length_take]; omega)
            cases hres : pi.parse_fn (rest.take pi.size) with
            | panic => exact absurd hres hgood.1
            | err e =>
              simp only [Sensors.parse_live_data, firstUnregistered, goodGroups,
                hp, hres, if_pos hsz]
              exact ihd
            | ok vals =>
              have hle : vals.length ≤ pi.field_names.length := hgood.2 vals hres
              simp only [Sensors.parse_live_data, firstUnregistered, goodGroups,
                hp, hres, if_pos hsz, if_pos hle]
              rw [ihd]
              cases hfu : firstUnregistered (rest.drop pi.size) <;> simp [hfu]
          · simp only [Sensors.parse_live_data, firstUnregistered, goodGroups,
              hp, if_neg hsz]
            exact ihd
  exact H data.length data (le_refl _)
theorem live_data_append (front s : List Nat) (hc : completesCleanly front = true) :
    Sensors.parse_live_data (front ++ s) =
      (match Sensors.parse_live_data s with
       | RResult.ok gs => RResult.ok (goodGroups front ++ gs)
       | r => r) := by
  have H : ∀ (n : Nat) (f : List Nat), f.length ≤ n → completesCleanly f = true →
      Sensors.parse_live_data (f ++ s) =
        (match Sensors.parse_live_data s with
         | RResult.ok gs => RResult.ok (goodGroups f ++ gs)
         | r => r) := by
    intro n
    induction n with
    | zero =>
      intro f hf hcf
      have hnil : f = [] := List.eq_nil_of_length_eq_zero (Nat.le_zero.mp hf)
      subst hnil
      simp only [List.nil_append, goodGroups]
      cases Sensors.parse_live_data s <;> simp
    | succ n ih =>
      intro f hf hcf
      match f with
      | [] =>
        simp only [List.nil_append, goodGroups]
        cases Sensors.parse_live_data s <;> simp
      | t :: rest =>
        cases hp : parsers t with
        | none => simp [completesCleanly, hp] at hcf
        | some pi =>
          simp only [completesCleanly, hp] at hcf
          by_cases hsz : pi.size ≤ rest.length
          · rw [if_pos hsz] at hcf
            have hsz' : pi.size ≤ (rest ++ s).length := by
              simp only [List.length_append]; omega
            have htake : (rest ++ s).take pi.size = rest.take pi.size :=
              List.take_append_of_le_length hsz
            have hdrop : (rest ++ s).drop pi.size = rest.drop pi.size ++ s :=
              List.drop_append_of_le_length hsz
            have hgood := registry_good t pi hp (rest.take pi.size)
              (by simp [List.length_take]; omega)
            have hlen : (rest.drop pi.size).length ≤ n := by
              simp only [List.length_cons] at hf
              simp only [List.length_drop]; omega
            have ihd := ih (rest.drop pi.size) hlen hcf
            cases hres : pi.parse_fn (rest.take pi.size) with
            | panic => exact absurd hres hgood.1
            | err e =>
              simp only [List.cons_append, Sensors.parse_live_data, goodGroups,
                hp, htake, hdrop, hres, if_pos hsz, if_pos hsz']
              exact ihd
            | ok vals =>
              have hle : vals.length ≤ pi.field_names.length := hgood.2 vals hres
              simp only [List.cons_append, Sensors.parse_live_data, goodGroups,
                hp, htake, hdrop, hres, if_pos hsz, if_pos hsz', if_pos hle]
              rw [ihd]
              cases Sensors.parse_live_data s <;> simp
          · rw [if_neg hsz] at hcf
            exact absurd hcf (by simp)
  exact H front.length front (le_refl _) hc
theorem sendFrom_exhaust (cmd : GatewayCommands) (payload : List Nat)
    (transport : Nat → List Nat → TransportOutcome) (max_tries : Nat) :
    ∀ (fuel attempt : Nat), attempt + fuel = max_tries →
    (∀ i, attempt ≤ i → i < max_tries →
      attemptFails transport cmd (SensorGateway.build_cmd_packet cmd.toByte payload) i) →
    sendFrom cmd payload transport max_tries attempt fuel =
      ⟨Except.error ("Failed to obtain response to command '" ++ cmd.debugStr
          ++ "' after " ++ toString max_tries ++ " attempts"), fuel,
        (List.range' attempt fuel).filter (fun i => decide (i < max_tries - 1) &&
          recvInvalid transport cmd (SensorGateway.build_cmd_packet cmd.toByte payload) i)⟩ := by
  intro fuel
  induction fuel with
  | zero =>
    intro attempt _ _
    simp [sendFrom, List.range']
  | succ fuel ih =>
    intro attempt heq hfail
    have hlt : attempt < max_tries := by omega
    have hstep := hfail attempt (le_refl _) hlt
    rw [List.range']
    cases ht : transport attempt (SensorGateway.build_cmd_packet cmd.toByte payload) with
    | timeoutErr =>
      have hrec := ih (attempt + 1) (by omega) (fun i hi hi2 => hfail i (by omega) hi2)
      simp only [sendFrom, ht, hrec, List.filter_cons]
      have : recvInvalid transport cmd
          (SensorGateway.build_cmd_packet cmd.toByte payload) attempt = false := by
        unfold recvInvalid
        rw [ht]
      simp [this]
    | otherErr =>
      have hrec := ih (attempt + 1) (by omega) (fun i hi hi2 => hfail i (by omega) hi2)
      simp only [sendFrom, ht, hrec, List.filter_cons]
      have : recvInvalid transport cmd
          (SensorGateway.build_cmd_packet cmd.toByte payload) attempt = false := by
        unfold recvInvalid
        rw [ht]
      simp [this]
    | recv resp =>
      simp only [attemptFails, ht] at hstep
      cases hv : SensorGateway.validate_response resp cmd.toByte with
      | ok u =>
        cases u
        exact absurd hv hstep
      | error e =>
        have hrec := ih (attempt + 1) (by omega) (fun i hi hi2 => hfail i (by omega) hi2)
        have hri : recvInvalid transport cmd
            (SensorGateway.build_cmd_packet cmd.toByte payload) attempt = true := by
          simp only [recvInvalid, ht, hv]
        simp only [sendFrom, ht, hv, hrec, List.filter_cons, hri, Bool.and_true]
        by_cases hl : attempt < max_tries - 1 <;> simp [hl]
theorem insertAssoc_inv (m : List (Nat × SensorMetadata)) (k : Nat)
    (v : SensorMetadata)
    (hm : ∀ p ∈ m, p.1 ≠ 0xffffffff ∧ p.2.address ≠ 0xffffffff)
    (hk : k ≠ 0xffffffff) (hv : v.address ≠ 0xffffffff) :
    ∀ p ∈ insertAssoc m k v, p.1 ≠ 0xffffffff ∧ p.2.address ≠ 0xffffffff := by
  intro p hp
  unfold insertAssoc at hp
  by_cases hany : m.any (fun q => q.1 = k)
  · rw [if_pos hany] at hp
    rcases List.mem_map.mp hp with ⟨q, hq, hpq⟩
    by_cases hqk : q.1 = k
    · rw [if_pos hqk] at hpq
      subst hpq
      exact ⟨hk, hv⟩
    · rw [if_neg hqk] at hpq
      subst hpq
      exact hm q hq
  · rw [if_neg hany] at hp
    rcases List.mem_append.mp hp with hp2 | hp2
    · exact hm p hp2
    · rcases List.mem_singleton.mp hp2 with rfl
      exact ⟨hk, hv⟩

theorem metaLoop_inv : ∀ (data : List Nat) (m m' : List (Nat × SensorMetadata)),
    (∀ p ∈ m, p.1 ≠ 0xffffffff ∧ p.2.address ≠ 0xffffffff) →
    metaLoop data m = RResult.ok m' →
    ∀ p ∈ m', p.1 ≠ 0xffffffff ∧ p.2.address ≠ 0xffffffff := by
  have H : ∀ (n : Nat) (data : List Nat), data.length ≤ n →
      ∀ (m m' : List (Nat × SensorMetadata)),
      (∀ p ∈ m, p.1 ≠ 0xffffffff ∧ p.2.address ≠ 0xffffffff) →
      metaLoop data m = RResult.ok m' →
      ∀ p ∈ m', p.1 ≠ 0xffffffff ∧ p.2.address ≠ 0xffffffff := by
    intro n
    induction n with
    | zero =>
      intro data hd m m' hm h
      have hnil : data = [] := List.eq_nil_of_length_eq_zero (Nat.le_zero.mp hd)
      subst hnil
      simp only [metaLoop] at h
      injection h with h
      subst h
      exact hm
    | succ n ih =>
      intro data hd m m' hm h
      match data with
      | [] =>
        simp only [metaLoop] at h
        injection h with h
        subst h
        exact hm
      | [t] => exact absurd h (by simp [metaLoop])
      | [t, a1] => exact absurd h (by simp [metaLoop])
      | [t, a1, a2] => exact absurd h (by simp [metaLoop])
      | [t, a1, a2, a3] => exact absurd h (by simp [metaLoop])
      | [t, a1, a2, a3, a4] => exact absurd h (by simp [metaLoop])
      | [t, a1, a2, a3, a4, ba] => exact absurd h (by simp [metaLoop])
      | t :: a1 :: a2 :: a3 :: a4 :: ba :: sg :: rest =>
        simp only [metaLoop] at h
        have hlen : rest.length ≤ n := by
          simp only [List.length_cons] at hd; omega
        by_cases haddr : be4 a1 a2 a3 a4 ≠ 0xffffffff
        · rw [if_pos haddr] at h
          exact ih rest hlen _ m'
            (insertAssoc_inv m _ _ hm haddr (by exact haddr)) h
        · rw [if_neg haddr] at h
          exact ih rest hlen m m' hm h
  intro data
  exact H data.length data (le_refl _)

/-- Claim C1 (code bug): the claim says the parsing operations never panic on
arbitrary byte sequences, every length check preceding any indexing.  The
code violates this: `parse_wh45` guards for 6 bytes but then slices
`data[5..7]`, so the one accepted length panics (its registry entry even
declares 16 bytes); `SensorGateway::parse_live_data` reads `response[3]`
and `response[4]` before any length check, so an empty response panics; and
`Sensors::update_metadata` slices `id_data[3..5]` guarded only by a
non-emptiness test, so the one-byte input `[0]` panics. -/
theorem C1_parsing_panics :
    SensorValue.parse_wh45 [0, 0, 0, 0, 0, 0] = RResult.panic ∧
    SensorGateway.parse_live_data [] = RResult.panic ∧
    Sensors.update_metadata [0] = RResult.panic :=
  ⟨rfl, rfl, rfl⟩

/-- Claim C2 (code bug): the claim says every registry entry's decoder
succeeds on a slice of exactly the declared size with `field_names.len()`
values.  Three families of entries refute it: id `0x22` (and `0x23`–`0x29`)
pairs `parse_temp` (which demands 2 bytes) with declared size 1 under a
humidity field name; id `0x0F` pairs `parse_gain` (which demands 4 bytes)
with declared size 2; id `0x70` pairs `parse_wh45` (whose guard demands 6
bytes) with declared size 16.  Each fails with a length error on every input
of its declared size. -/
theorem C2_registry_size_mismatches :
    (∃ pi : ParseInfo, parsers 0x22 = some pi ∧ pi.size = 1 ∧
      pi.field_names = ["humidity_1"] ∧
      pi.parse_fn [0] = RResult.err "Invalid data length temp") ∧
    (∃ pi : ParseInfo, parsers 0x0F = some pi ∧ pi.size = 2 ∧
      pi.field_names = ["rain_gain"] ∧
      pi.parse_fn [0, 0] = RResult.err "Invalid data length for gain") ∧
    (∃ pi : ParseInfo, parsers 0x70 = some pi ∧ pi.size = 16 ∧
      pi.parse_fn (List.replicate 16 0)
        = RResult.err "Invalid data length for wh45 sensor") :=
  ⟨⟨_, rfl, rfl, rfl, rfl⟩, ⟨_, rfl, rfl, rfl, rfl⟩, ⟨_, rfl, rfl, rfl⟩⟩

/-- Claim C3 (code bug): the claim says `parse_wh45` decodes every 16-byte
input into eight values and rejects only non-16 lengths with a decode-length
error.  In the code the guard demands 6 bytes, so every 16-byte input —
exactly what the registry feeds it — fails with the length error, and a
6-byte input panics at the sub-slice `data[5..7]` instead of decoding. -/
theorem C3_wh45_never_decodes :
    SensorValue.parse_wh45 (List.replicate 16 0)
      = RResult.err "Invalid data length for wh45 sensor" ∧
    SensorValue.parse_wh45 (List.replicate 6 0) = RResult.panic :=
  ⟨rfl, rfl⟩

/-- Claim C4 (confirmed): for every command code and payload of length at
most 252, building a frame with `build_cmd_packet` and validating it against
the same command succeeds — the command echo at byte 2 matches, and the
checksum recomputed over `response[2..len-1]` equals the stored final
byte. -/
theorem C4_frame_roundtrip (cmd : Nat) (payload : List Nat)
    (h : payload.length ≤ 252) :
    SensorGateway.validate_response (SensorGateway.build_cmd_packet cmd payload) cmd
      = Except.ok () := by
  have hstep : SensorGateway.build_cmd_packet cmd payload
      = (0xFF :: 0xFF :: cmd :: ((payload.length % 256 + 3) % 256) :: payload)
        ++ [SensorGateway.generate_checksum
              (cmd :: ((payload.length % 256 + 3) % 256) :: payload)] := by
    unfold SensorGateway.build_cmd_packet
    simp
  rw [hstep]
  unfold SensorGateway.validate_response
  rw [if_pos ?hcmd]
  case hcmd => simp [List.getElem?_append_left]
  rw [if_pos ?hck]
  case hck =>
    have h1 : ((0xFF :: 0xFF :: cmd :: ((payload.length % 256 + 3) % 256) :: payload)
        ++ [SensorGateway.generate_checksum
              (cmd :: ((payload.length % 256 + 3) % 256) :: payload)]).drop 2
        = (cmd :: ((payload.length % 256 + 3) % 256) :: payload)
          ++ [SensorGateway.generate_checksum
              (cmd :: ((payload.length % 256 + 3) % 256) :: payload)] := by
      simp
    have h2 : ((0xFF :: 0xFF :: cmd :: ((payload.length % 256 + 3) % 256) :: payload)
        ++ [SensorGateway.generate_checksum
              (cmd :: ((payload.length % 256 + 3) % 256) :: payload)]).length - 3
        = (cmd :: ((payload.length % 256 + 3) % 256) :: payload).length := by
      simp
    rw [h1, h2, List.take_left]
    have h3 : ((0xFF :: 0xFF :: cmd :: ((payload.length % 256 + 3) % 256) :: payload)
        ++ [SensorGateway.generate_checksum
              (cmd :: ((payload.length % 256 + 3) % 256) :: payload)]).getLast?
        = some (SensorGateway.generate_checksum
              (cmd :: ((payload.length % 256 + 3) % 256) :: payload)) := by
      rw [List.getLast?_concat]
    rw [h3]
    rfl

/-- Witness for C4 at a concrete command and payload. -/
theorem C4_frame_roundtrip_witness :
    SensorGateway.validate_response
      (SensorGateway.build_cmd_packet 0x27 [1, 2, 3]) 0x27 = Except.ok () :=
  C4_frame_roundtrip 0x27 [1, 2, 3] (by decide)

/-- Claim C5 (confirmed): `Sensors::parse_live_data` fails with the
unknown-sensor-type error exactly when the record walk from the start meets
a type id absent from the registry (`firstUnregistered`); otherwise it
returns `Ok` with precisely one reading group per record that fits and whose
decoder succeeds (`goodGroups`), records with failing decoders being omitted
while dispatch continues. -/
theorem C5_unknown_type_fatal_iff (data : List Nat) :
    Sensors.parse_live_data data =
      (match firstUnregistered data with
       | some u => RResult.err ("Failed to find parser for type id 0x" ++ hexByteStr u)
       | none => RResult.ok (goodGroups data)) :=
  live_data_refines data

/-- Claim C6 (corrected), counterexample: with a transport that times out on
every attempt and `max_tries = 3`, `send_cmd` does make exactly 3 attempts
and return the exhaustion error, but it performs no sleeps at all — not the
two between-attempt sleeps the claim requires — because the transport-error
arm `continue`s past the sleep at the bottom of the loop. -/
theorem C6_counterexample_no_sleep_on_transport_error :
    (SensorGateway.send_cmd 3 GatewayCommands.LiveData []
        (fun _ _ => TransportOutcome.timeoutErr)).attemptsMade = 3 ∧
    (SensorGateway.send_cmd 3 GatewayCommands.LiveData []
        (fun _ _ => TransportOutcome.timeoutErr)).result
      = Except.error "Failed to obtain response to command 'LiveData' after 3 attempts" ∧
    (SensorGateway.send_cmd 3 GatewayCommands.LiveData []
        (fun _ _ => TransportOutcome.timeoutErr)).sleptAfter = [] ∧
    ([] : List Nat) ≠ [0, 1] :=
  ⟨rfl, rfl, rfl, by decide⟩

/-- Claim C6 (corrected), amended statement: when every attempt fails,
`send_cmd` performs exactly `max_tries` attempts and returns the single
exhaustion error naming the command and the attempt count, but it sleeps
`retry_wait` only after a non-final attempt whose transport exchange
completed and whose response merely failed validation; attempts that fail at
the transport level skip the sleep via `continue`. -/
theorem C6_retry_amended (max_tries : Nat) (cmd : GatewayCommands)
    (payload : List Nat) (transport : Nat → List Nat → TransportOutcome)
    (h : ∀ i, i < max_tries →
      attemptFails transport cmd (SensorGateway.build_cmd_packet cmd.toByte payload) i) :
    (SensorGateway.send_cmd max_tries cmd payload transport).result
        = Except.error ("Failed to obtain response to command '" ++ cmd.debugStr
            ++ "' after " ++ toString max_tries ++ " attempts") ∧
    (SensorGateway.send_cmd max_tries cmd payload transport).attemptsMade = max_tries ∧
    (SensorGateway.send_cmd max_tries cmd payload transport).sleptAfter
        = (List.range max_tries).filter (fun i => decide (i < max_tries - 1) &&
            recvInvalid transport cmd
              (SensorGateway.build_cmd_packet cmd.toByte payload) i) := by
  have hs := sendFrom_exhaust cmd payload transport max_tries max_tries 0 (by omega)
    (fun i _ hi => h i hi)
  unfold SensorGateway.send_cmd
  rw [List.range_eq_range', hs]
  exact ⟨rfl, rfl, rfl⟩

/-- Witness for the amended C6: a transport that always hands back an empty
(hence invalid) response makes all three attempts fail validation, and the
sleep schedule is exactly the non-final attempts. -/
theorem C6_retry_amended_witness :
    (SensorGateway.send_cmd 3 GatewayCommands.LiveData []
        (fun _ _ => TransportOutcome.recv [])).result
      = Except.error "Failed to obtain response to command 'LiveData' after 3 attempts" ∧
    (SensorGateway.send_cmd 3 GatewayCommands.LiveData []
        (fun _ _ => TransportOutcome.recv [])).attemptsMade = 3 ∧
    (SensorGateway.send_cmd 3 GatewayCommands.LiveData []
        (fun _ _ => TransportOutcome.recv [])).sleptAfter
      = (List.range 3).filter (fun i => decide (i < 3 - 1) &&
          recvInvalid (fun _ _ => TransportOutcome.recv []) GatewayCommands.LiveData
            (SensorGateway.build_cmd_packet GatewayCommands.LiveData.toByte []) i) :=
  C6_retry_amended 3 GatewayCommands.LiveData [] (fun _ _ => TransportOutcome.recv [])
    (fun i _ => by simp [attemptFails, SensorGateway.validate_response])

/-- Claim C7 (confirmed): `parse_battery_state` follows the three-bucket
classification: in the binary bucket `0.0 ↦ Ok`, `1.0 ↦ Low`, anything else
`Unknown`; in the integer-step bucket `≤ 1 ↦ Low`, `≤ 5 ↦ Ok`, `= 6 ↦
Connected`, else `Unknown`; in the voltage bucket `≤ 1.2 ↦ Low`, else `Ok`;
and every id outside the three buckets maps to `Unknown`. -/
theorem C7_battery_three_buckets (id : Nat) (b : ℚ) :
    (binaryBucket id → SensorMetadata.parse_battery_state id b =
      some (if b = 0 then SensorBatteryState.Ok
            else if b = 1 then SensorBatteryState.Low
            else SensorBatteryState.Unknown)) ∧
    (integerBucket id → SensorMetadata.parse_battery_state id b =
      some (if b ≤ 1 then SensorBatteryState.Low
            else if b ≤ 5 then SensorBatteryState.Ok
            else if b = 6 then SensorBatteryState.Connected
            else SensorBatteryState.Unknown)) ∧
    (voltageBucket id → SensorMetadata.parse_battery_state id b =
      some (if b ≤ 6 / 5 then SensorBatteryState.Low else SensorBatteryState.Ok)) ∧
    (¬ binaryBucket id → ¬ integerBucket id → ¬ voltageBucket id →
      SensorMetadata.parse_battery_state id b = some SensorBatteryState.Unknown) := by
  unfold binaryBucket integerBucket voltageBucket SensorMetadata.parse_battery_state
  refine ⟨?_, ?_, ?_, ?_⟩
  · intro hb
    rw [if_pos hb]
    split_ifs <;> first | rfl | (exfalso; simp_all)
  · intro hb
    have hnb : ¬ (id = 0 ∨ id = 4 ∨ (5 ≤ id ∧ id ≤ 0xd)) := by omega
    rw [if_neg hnb, if_pos hb]
    split_ifs <;> rfl
  · intro hb
    have hnb : ¬ (id = 0 ∨ id = 4 ∨ (5 ≤ id ∧ id ≤ 0xd)) := by omega
    have hni : ¬ ((0x16 ≤ id ∧ id ≤ 0x1e) ∨ id = 0x27) := by omega
    rw [if_neg hnb, if_neg hni, if_pos hb]
    split_ifs <;> rfl
  · intro h1 h2 h3
    rw [if_neg h1, if_neg h2, if_neg h3]

/-- Witness for C7: the integer-step bucket at id `0x16` with raw value 5
classifies as `Ok`. -/
theorem C7_battery_three_buckets_witness :
    SensorMetadata.parse_battery_state 0x16 5 = some SensorBatteryState.Ok := by
  have h := (C7_battery_three_buckets 0x16 (5 : ℚ)).2.1 (by norm_num [integerBucket])
  rw [h]
  norm_num

/-- Claim C8 (confirmed): whenever `update_metadata` returns a map, no entry
of it — neither key nor stored record — carries the unpopulated-slot address
`0xFFFFFFFF`; such inventory records are skipped wherever they occur. -/
theorem C8_no_unpopulated_slot (id_data : List Nat)
    (m : List (Nat × SensorMetadata))
    (h : Sensors.update_metadata id_data = RResult.ok m) :
    ∀ p ∈ m, p.1 ≠ 0xffffffff ∧ p.2.address ≠ 0xffffffff := by
  unfold Sensors.update_metadata at h
  by_cases h0 : id_data.length = 0
  · rw [if_pos h0] at h
    injection h with h
    subst h
    intro p hp
    exact absurd hp (List.not_mem_nil p)
  rw [if_neg h0] at h
  by_cases h5 : id_data.length < 5
  · rw [if_pos h5] at h
    exact absurd h (by simp)
  rw [if_neg h5] at h
  dsimp only at h
  split at h
  · exact metaLoop_inv _ [] m (fun p hp => absurd hp (List.not_mem_nil p)) h
  · exact absurd h (by simp)

/-- Witness for C8: an inventory with one unpopulated record (address
`0xFFFFFFFF`) and one live record at address 5 yields a map whose single
entry avoids the unpopulated address. -/
theorem C8_no_unpopulated_slot_witness :
    (5 : Nat) ≠ 0xffffffff ∧
    (SensorMetadata.new 2 5 (some ((3 : Nat) : ℚ)) 60).address ≠ 0xffffffff :=
  C8_no_unpopulated_slot
    [0, 0, 0, 0, 18, 1, 255, 255, 255, 255, 0, 50, 2, 0, 0, 0, 5, 3, 60]
    [(5, SensorMetadata.new 2 5 (some ((3 : Nat) : ℚ)) 60)] rfl
    (5, SensorMetadata.new 2 5 (some ((3 : Nat) : ℚ)) 60) (by simp)

/-- Claim C9 (confirmed): `to_json_val` renders a `DateTime` as `dt:` plus
six space-separated two-digit lowercase hex pairs, a `Battery` as one of the
four literal strings, `Empty` as JSON null, and each integer kind (distance,
direction, utc-time, count, co2) as its integer unchanged and unrounded. -/
theorem C9_projection_scalars :
    (∀ v : Bytes6, SensorValue.to_json_val (SensorValue.DateTime v) =
      Json.jstr ("dt:" ++ hex2 v.b0 ++ " " ++ hex2 v.b1 ++ " " ++ hex2 v.b2 ++ " "
        ++ hex2 v.b3 ++ " " ++ hex2 v.b4 ++ " " ++ hex2 v.b5)) ∧
    (∀ s, SensorValue.to_json_val (SensorValue.Battery s)
        ∈ [Json.jstr "ok", Json.jstr "low", Json.jstr "connected", Json.jstr "unknown"]) ∧
    SensorValue.to_json_val SensorValue.Empty = Json.null ∧
    (∀ z, SensorValue.to_json_val (SensorValue.Distance z) = Json.jint z) ∧
    (∀ z, SensorValue.to_json_val (SensorValue.Direction z) = Json.jint z) ∧
    (∀ z, SensorValue.to_json_val (SensorValue.UtcTime z) = Json.jint z) ∧
    (∀ n : ℕ, SensorValue.to_json_val (SensorValue.Count n) = Json.jint n) ∧
    (∀ z, SensorValue.to_json_val (SensorValue.Co2 z) = Json.jint z) := by
  refine ⟨fun v => rfl, fun s => ?_, rfl, fun z => rfl, fun z => rfl,
    fun z => rfl, fun n => rfl, fun z => rfl⟩
  cases s <;> simp [SensorValue.to_json_val, batteryStateStr]

/-- Claim C10 (confirmed): a live-data buffer whose cleanly-walked prefix is
followed by a final record with a registered type id but fewer remaining
bytes than its declared size parses to `Ok` with exactly the groups of the
prefix — the truncated tail is silently dropped and no error is raised. -/
theorem C10_truncated_tail_dropped (front : List Nat) (t : Nat)
    (rest : List Nat) (pi : ParseInfo)
    (hfront : completesCleanly front = true) (ht : parsers t = some pi)
    (hshort : rest.length < pi.size) :
    Sensors.parse_live_data (front ++ t :: rest) = RResult.ok (goodGroups front) := by
  rw [live_data_append front (t :: rest) hfront]
  have hdrop : rest.drop pi.size = [] := List.drop_eq_nil_of_le (le_of_lt hshort)
  have hns : ¬ pi.size ≤ rest.length := Nat.not_le.mpr hshort
  simp only [Sensors.parse_live_data, ht, if_neg hns, hdrop]
  simp

/-- Witness for C10: a humidity record followed by a truncated temperature
record (1 of 2 declared bytes) parses to exactly the humidity group. -/
theorem C10_truncated_tail_dropped_witness :
    Sensors.parse_live_data [0x06, 55, 0x02, 0] = RResult.ok (goodGroups [0x06, 55]) := by
  have h := C10_truncated_tail_dropped [0x06, 55] 0x02 [0]
    ⟨SensorValue.parse_temp, ["outdoor_temp"], 2⟩
    (by norm_num [completesCleanly, parsers]) rfl (by decide)
  simpa using h
